import Mathlib

/-!
# Verification of the threshold-FHE Mafia agent protocol layer

Shallow embedding of the protocol handlers of the agent process
(`src/player.py`, `src/action_handlers.py`, `src/service/agent/agent_service.py`,
`src/suspicion.py`, `src/model/dkg.py`) and proofs about them.

Ciphertexts, partial decryption shares and the FHE primitives
(`service/crypto/*`, which is not part of the repository snapshot) are
modelled symbolically: a ciphertext is a symbolic term recording how it was
built, a partial decryption share is the pair (contributing party, ciphertext),
and fusion of a complete share set recovers the plaintext of the common
ciphertext.  Serialization is the identity on these symbolic values.
-/

set_option autoImplicit false

/-- Symbolic ciphertext: records how the ciphertext was built.
`zeroVec n` is `create_zero_vector(n, ...)`, `oneHot n i` is
`create_one_hot_vector(n, i, ...)`, `dot c v` is
`homomorphic_dot_product(cc, c, v)`, and `raw t` is an opaque ciphertext
received from the wire. -/
inductive Ct where
  | zeroVec (n : Nat)
  | oneHot (n : Nat) (i : Int)
  | dot (c : Ct) (v : List Int)
  | raw (tag : Nat)
deriving DecidableEq

/-- Underlying plaintext vector of a symbolic ciphertext. -/
def Ct.plain : Ct → List Int
  | .zeroVec n => List.replicate n 0
  | .oneHot n i => (List.range n).map (fun j => if (j : Int) = i then 1 else 0)
  | .dot c v => [List.sum (List.zipWith (· * ·) c.plain v)]
  | .raw _ => []

/-- A party's partial decryption share of a ciphertext: the pair of the
contributing party's index (standing for its secret key share) and the
ciphertext it decrypts. -/
structure Share where
  owner : Nat
  ct : Ct
deriving DecidableEq

/-- Modelled from the spec: `service/crypto/threshold_decryption.py` is not
under `src/`.  `partial_decrypt_main(cc, ct, secretKey)` — a party's partial
decryption share of a ciphertext, determined by the party's secret key (its
index here) and the ciphertext. -/
def decryptShare (owner : Nat) (c : Ct) : Share :=
  ⟨owner, c⟩

/-- Modelled from the spec: `service/crypto/threshold_decryption.py` is not
under `src/`.  `fusion_decrypt(cc, shares)` combines a complete set of shares
for one ciphertext into its plaintext vector; modelled as decoding the common
ciphertext of the shares. -/
def fusion_decrypt (shares : List Share) : List Int :=
  match shares with
  | [] => []
  | s :: _ => s.ct.plain

/-- `service/crypto/roles.py` (not under `src/`): the number of role kinds. -/
def NUM_ROLE_TYPES : Nat := 4

/-- Modelled from the spec: `service/crypto/roles.py` is not under `src/`.
Role labels in encoding order; index 1 is mafia, forced by the constant
`mafia_check_vector = [0, 1, 0, 0]` in `agent_service.py`. -/
def ROLE_TYPES : List String := ["citizen", "mafia", "doctor", "police"]

/-- Modelled from the spec: `service/crypto/roles.py` is not under `src/`.
`one_hot_to_role` maps the recovered one-hot coordinate back to a role
label. -/
def one_hot_to_role (v : List Int) : String :=
  match v.findIdx? (· = 1) with
  | some i => ROLE_TYPES.getD i "unknown"
  | none => "unknown"

/-- The constant mafia-indicator vector of `_execute_police_investigation`. -/
def mafia_check_vector : List Int := [0, 1, 0, 0]

/-- `homomorphic_dot_product(cc, ct, v)` (external FHE capability), symbolic. -/
def homomorphic_dot_product (c : Ct) (v : List Int) : Ct :=
  Ct.dot c v

/-! ## Relay decryption chain (`/relay_decrypt`, `src/player.py` 534-610) -/

/-- What one `/relay_decrypt` invocation returns to its caller: either the
accumulated share list (the JSON object with key `partial_results`) or a
decrypted plaintext vector (the JSON object with key `decrypted_vector`). -/
inductive RelayResult where
  | shareList (ps : List Share)
  | decrypted (v : List Int)
deriving DecidableEq

/-- The `/relay_decrypt` handler, run by party `self` on a request carrying
ciphertext `c`, accumulated shares `acc` and `remaining_order` `order`.
Faithful to `src/player.py` lines 534-610:
* the handler computes its own share of `c` and appends it to `acc`;
* if `order` is empty it returns the accumulated share list;
* otherwise it forwards to party `order.head` with `order.tail`, and on the
  way back: if the forwarded call returned a share list, THIS hop performs
  `fusion_decrypt` and returns the decrypted vector; if the forwarded call
  returned a decrypted vector, it is passed through unchanged. -/
def relay_decrypt (c : Ct) : Nat → List Share → List Nat → RelayResult
  | self, acc, [] => .shareList (acc ++ [decryptShare self c])
  | self, acc, next :: rest =>
    match relay_decrypt c next (acc ++ [decryptShare self c]) rest with
    | .shareList ps => .decrypted (fusion_decrypt ps)
    | .decrypted v => .decrypted v

/-- Closed form of the relay chain: with an empty `remaining_order` the hop
returns the accumulated share list; with a non-empty `remaining_order` the
caller receives a decrypted vector, fused from the shares of the handling
party followed by one share per entry of `remaining_order`. -/
theorem relay_decrypt_eq (c : Ct) :
    ∀ (order : List Nat) (self : Nat) (acc : List Share),
      relay_decrypt c self acc order =
        match order with
        | [] => .shareList (acc ++ [decryptShare self c])
        | _ :: _ =>
            .decrypted (fusion_decrypt
              (acc ++ (self :: order).map (fun p => decryptShare p c))) := by
  intro order
  induction order with
  | nil => intro self acc; rfl
  | cons next rest ih =>
    intro self acc
    show (match relay_decrypt c next (acc ++ [decryptShare self c]) rest with
          | .shareList ps => RelayResult.decrypted (fusion_decrypt ps)
          | .decrypted v => RelayResult.decrypted v) = _
    rw [ih next (acc ++ [decryptShare self c])]
    cases rest with
    | nil => simp
    | cons r rs => simp

/-! ## DKG round handlers (`src/player.py` 176-327, `src/model/dkg.py`) -/

/-- A keypair held by the agent: generated as the lead party or by joining
with the previous party's public key (`dkg_keygen_lead` / `dkg_keygen_join`,
external crypto, symbolic). -/
inductive KeyPair where
  | leadKey
  | joinKey (prevPub : String)
deriving DecidableEq

/-- `serialize_public_key` of the public half of a keypair, symbolic. -/
def serialize_public_key : KeyPair → String
  | .leadKey => "pk-lead"
  | .joinKey p => "pk-join-of-" ++ p

/-- The slice of `AgentState` the DKG handlers read and write:
`state.game_id`, whether `state.cc` is set, and `state.keypair`. -/
structure DKGState where
  game_id : Option String
  cc_initialized : Bool
  keypair : Option KeyPair
deriving DecidableEq

/-- `DKGRoundRequest` (`src/model/dkg.py` lines 24-28).  Note: the model has
exactly two fields, `round_number` and `previous_public_key`; it carries NO
game identifier. -/
structure DKGRoundRequest where
  round_number : Nat
  previous_public_key : Option String
deriving DecidableEq

/-- The `/dkg_round` handler (`src/player.py` 176-207): requires `state.cc`;
round 1 with no previous key generates the lead keypair, otherwise the
handler deserializes the previous public key (failing if it is absent) and
joins with it; the new keypair is stored and its public key returned.
There is no game-identifier check of any kind. -/
def dkg_round (st : DKGState) (req : DKGRoundRequest) :
    Except String (String × DKGState) :=
  if st.cc_initialized = false then
    .error "CryptoContext not initialized. Call dkg_setup first."
  else if req.round_number = 1 ∧ req.previous_public_key = none then
    .ok (serialize_public_key .leadKey, { st with keypair := some .leadKey })
  else
    match req.previous_public_key with
    | none => .error "deserialize_public_key failed"
    | some pk =>
        .ok (serialize_public_key (.joinKey pk),
             { st with keypair := some (.joinKey pk) })

/-- Request body of `/generate_keyswitchgen`: a JSON dict, read via
`request.get("game_id")` and `request.get("prev_key")` (absent keys read as
`none`). -/
structure KeySwitchGenRequest where
  game_id : Option String
  prev_key : Option String
deriving DecidableEq

/-- `MultiKeySwitchGen(secretKey, secretKey, prevKey)`, symbolic. -/
def multiKeySwitchGen (kp : KeyPair) (prevKey : String) : String :=
  "ksw-" ++ serialize_public_key kp ++ "-" ++ prevKey

/-- The `/generate_keyswitchgen` handler (`src/player.py` 210-245): requires
`state.cc` and `state.keypair`; rejects a mismatched `game_id` with an error;
then deserializes `prev_key` (failing if absent) and returns the local
key-switch key.  The handler never writes any agent state. -/
def generate_keyswitchgen (st : DKGState) (req : KeySwitchGenRequest) :
    Except String String :=
  if st.cc_initialized = false ∨ st.keypair = none then
    .error "Keys not initialized. Complete DKG first."
  else if req.game_id ≠ st.game_id then
    .error "Game ID mismatch"
  else
    match req.prev_key, st.keypair with
    | none, _ => .error "deserialize_eval_mult_key_object failed"
    | _, none => .error "Keys not initialized. Complete DKG first."
    | some pk, some kp => .ok (multiKeySwitchGen kp pk)

/-- Request body of `/generate_multmultkey`. -/
structure MultMultKeyRequest where
  game_id : Option String
  combined_key : Option String
  key_tag : Option String
deriving DecidableEq

/-- `MultiMultEvalKey(secretKey, combinedKey, keyTag)`, symbolic. -/
def multiMultEvalKey (kp : KeyPair) (combined : String) : String :=
  "mmk-" ++ serialize_public_key kp ++ "-" ++ combined

/-- The `/generate_multmultkey` handler (`src/player.py` 248-285): requires
`state.cc` and `state.keypair`; rejects a mismatched `game_id` with an error;
then deserializes `combined_key` (failing if absent) and returns the
transformed multiplication key.  The handler never writes any agent state. -/
def generate_multmultkey (st : DKGState) (req : MultMultKeyRequest) :
    Except String String :=
  if st.cc_initialized = false ∨ st.keypair = none then
    .error "Keys not initialized. Complete DKG first."
  else if req.game_id ≠ st.game_id then
    .error "Game ID mismatch"
  else
    match req.combined_key, st.keypair with
    | none, _ => .error "deserialize_eval_mult_key_object failed"
    | _, none => .error "Keys not initialized. Complete DKG first."
    | some ck, some kp => .ok (multiMultEvalKey kp ck)

/-! ## `/receive_mult_keys` (`src/player.py` 367-409) -/

/-- A serialized multiplication-key fragment on the wire: either a
well-formed key with an identity, or a malformed blob. -/
inductive MultKey where
  | good (id : String)
  | malformed
deriving DecidableEq

/-- Error raised by inserting a key into the crypto context. -/
inductive InsertErr where
  | duplicate
  | other
deriving DecidableEq

/-- `deserialize_eval_mult_key(cc, key)`: inserts the key into the context's
key store.  Per the handler's own except-clause, OpenFHE raises a
RuntimeError mentioning "Can not save a EvalMultKeys vector" when the key is
already present; a malformed blob raises some other error. -/
def deserialize_eval_mult_key (store : List String) :
    MultKey → Except InsertErr (List String)
  | .malformed => .error .other
  | .good id => if id ∈ store then .error .duplicate else .ok (store ++ [id])

/-- The `for` loop of `/receive_mult_keys`: inserts each key in turn,
counting inserts, skipping (and counting) duplicate-key errors, and aborting
on any other error. -/
def receive_mult_keys_loop (store : List String) (keys : List MultKey)
    (inserted skipped : Nat) : Except String (List String × Nat × Nat) :=
  match keys with
  | [] => .ok (store, inserted, skipped)
  | k :: rest =>
    match deserialize_eval_mult_key store k with
    | .ok store2 => receive_mult_keys_loop store2 rest (inserted + 1) skipped
    | .error .duplicate => receive_mult_keys_loop store rest inserted (skipped + 1)
    | .error .other => .error "deserialize_eval_mult_key failed"

/-- The `/receive_mult_keys` handler (`src/player.py` 367-409): requires
`state.cc`; rejects a mismatched `game_id`; then inserts every key of
`mult_keys` into the context, treating an already-present key as a skip (not
a failure), and returns success with the insert count. -/
def receive_mult_keys (st_game_id : Option String) (cc_initialized : Bool)
    (store : List String) (req_game_id : Option String)
    (mult_keys : List MultKey) : Except String (List String × Nat × Nat) :=
  if cc_initialized = false then
    .error "CryptoContext not initialized. Complete DKG setup first."
  else if req_game_id ≠ st_game_id then
    .error "Game ID mismatch"
  else
    receive_mult_keys_loop store mult_keys 0 0

/-- The key store that results from inserting `ids` in order, skipping the
ones already present. -/
def insertAll (store : List String) (ids : List String) : List String :=
  match ids with
  | [] => store
  | id :: rest =>
      insertAll (if id ∈ store then store else store ++ [id]) rest

/-! ## Blind action protocol (`/request_action`, `src/player.py` 813-898,
`src/action_handlers.py`) -/

/-- Plaintext payload of an encrypted action vector. -/
inductive Vec where
  | zero (n : Nat)
  | oneHot (n : Nat) (i : Int)
deriving DecidableEq

/-- Length (shape) of the payload vector. -/
def Vec.shape : Vec → Nat
  | .zero n => n
  | .oneHot n _ => n

/-- An encrypted action vector as serialized on the wire: the payload plus a
nonce identifying the encryption call that produced it.  Two ciphertexts
produced by distinct encryption calls are distinct strings (fresh encryption
randomness); re-serializing the same ciphertext object yields the identical
string. -/
structure EncVec where
  payload : Vec
  nonce : Nat
deriving DecidableEq

/-- `create_zero_vector(num_players, cc, joint_public_key)`: one encryption
call, consuming one nonce. -/
def create_zero_vector (n ctr : Nat) : EncVec × Nat :=
  (⟨Vec.zero n, ctr⟩, ctr + 1)

/-- `create_one_hot_vector(num_players, target, cc, joint_public_key)`: one
encryption call, consuming one nonce. -/
def create_one_hot_vector (n : Nat) (i : Int) (ctr : Nat) : EncVec × Nat :=
  (⟨Vec.oneHot n i, ctr⟩, ctr + 1)

/-- Which roles arise. -/
inductive Role where
  | citizen
  | mafia
  | doctor
  | police
deriving DecidableEq

/-- The body of `ActionResponse` (`src/model/action.py`): one response,
always all three vectors. -/
structure ActionResponse where
  vote_vector : EncVec
  attack_vector : EncVec
  heal_vector : EncVec
  phase : String
deriving DecidableEq

/-- The vector-building tail of `handle_vote_phase`
(`src/action_handlers.py` 180-222): a one-hot vote if a pending target `≥ 0`
was chosen, else a zero vote; attack and heal are always fresh zero
vectors.  Creation order: vote, then attack, then heal. -/
def handle_vote_phase_vectors (n : Nat) (target : Option Int) (ctr : Nat) :
    (EncVec × EncVec × EncVec) × Nat :=
  let (vote, c1) :=
    match target with
    | some t => if 0 ≤ t then create_one_hot_vector n t ctr
                else create_zero_vector n ctr
    | none => create_zero_vector n ctr
  let (attack, c2) := create_zero_vector n c1
  let (heal, c3) := create_zero_vector n c2
  ((vote, attack, heal), c3)

/-- `generate_vote_vector` (`src/action_handlers.py` 426-443); identical
vector logic to the vote-phase handler. -/
def generate_vote_vector (n : Nat) (target : Option Int) (ctr : Nat) :
    (EncVec × EncVec × EncVec) × Nat :=
  let (vote, c1) :=
    match target with
    | some t => if 0 ≤ t then create_one_hot_vector n t ctr
                else create_zero_vector n ctr
    | none => create_zero_vector n ctr
  let (attack, c2) := create_zero_vector n c1
  let (heal, c3) := create_zero_vector n c2
  ((vote, attack, heal), c3)

/-- `generate_night_work_vectors` (`src/action_handlers.py` 350-424).
Vote phase delegates to `generate_vote_vector`.  Otherwise three fresh zero
vectors are created (vote, attack, heal in order); in the night phase a
mafia with a chosen target replaces attack by a fresh one-hot, a doctor with
a chosen target replaces heal by a fresh one-hot; citizen and police leave
all three as zero vectors. -/
def generate_night_work_vectors (n : Nat) (role : Role) (phase : String)
    (target : Option Int) (ctr : Nat) : (EncVec × EncVec × EncVec) × Nat :=
  if phase = "vote" then
    generate_vote_vector n target ctr
  else
    let (vote, c1) := create_zero_vector n ctr
    let (attack, c2) := create_zero_vector n c1
    let (heal, c3) := create_zero_vector n c2
    if phase = "night" then
      match role, target with
      | .mafia, some t =>
          let (a, c4) := create_one_hot_vector n t c3
          ((vote, a, heal), c4)
      | .doctor, some t =>
          let (h, c4) := create_one_hot_vector n t c3
          ((vote, attack, h), c4)
      | _, _ => ((vote, attack, heal), c3)
    else ((vote, attack, heal), c3)

/-- The `/request_action` handler (`src/player.py` 813-898), vector part.
Inputs: the agent's index, stored alive flag and role, the request's phase
and survivors list, the pending targets the phase handlers would produce,
and the encryption-nonce counter.  Output: the `ActionResponse` triple, the
updated alive flag, and the updated counter.
* If the agent's index is not in `survivors` it marks itself dead.
* A dead agent serializes ONE zero vector and duplicates it into all three
  fields.
* Phase `vote` answers with the vote-phase vectors; phase `night` with the
  night work vectors; phases `chat`/`day` and any unknown phase answer with
  ONE zero vector duplicated into all three fields. -/
def request_action (n selfIdx : Nat) (aliveIn : Bool) (role : Role)
    (phase : String) (survivors : List Nat)
    (voteTarget nightTarget : Option Int) (ctr : Nat) :
    (ActionResponse × Bool) × Nat :=
  let alive := if selfIdx ∈ survivors then aliveIn else false
  if alive = false then
    let z := (create_zero_vector n ctr).1
    ((⟨z, z, z, phase⟩, false), (create_zero_vector n ctr).2)
  else if phase = "vote" then
    let t := handle_vote_phase_vectors n voteTarget ctr
    ((⟨t.1.1, t.1.2.1, t.1.2.2, phase⟩, alive), t.2)
  else if phase = "night" then
    let t := generate_night_work_vectors n role "night" nightTarget ctr
    ((⟨t.1.1, t.1.2.1, t.1.2.2, phase⟩, alive), t.2)
  else if phase ∈ ["chat", "day"] then
    let z := (create_zero_vector n ctr).1
    ((⟨z, z, z, phase⟩, alive), (create_zero_vector n ctr).2)
  else
    let z := (create_zero_vector n ctr).1
    ((⟨z, z, z, phase⟩, alive), (create_zero_vector n ctr).2)

/-! ## Decoy investigation broadcast (`src/action_handlers.py` 225-265 and
462-499) -/

/-- `send_dummy_investigation_packets`: the indices the zero-vector decoy
packet is posted to — every player other than the sender. -/
def send_dummy_investigation_packets (selfIdx n : Nat) : List Nat :=
  (List.range n).filter (fun i => i ≠ selfIdx)

/-- The decoy broadcasts issued by `handle_night_phase`
(`src/action_handlers.py` 225-265): ONLY the citizen branch schedules
`send_dummy_investigation_packets`; the mafia, doctor and police paths
return without any decoy broadcast. -/
def handle_night_phase_decoys (role : Role) (selfIdx n : Nat) : List Nat :=
  if role = Role.citizen then send_dummy_investigation_packets selfIdx n
  else []

/-! ## Parallel police investigation
(`src/service/agent/agent_service.py` 14-104) -/

/-- The `player_addresses` table built inside
`_execute_police_investigation`: index 0 maps to the human player's address,
the investigator's own index maps to `None`, every other index maps to that
agent's address. -/
def investigation_address (selfIdx i : Nat) : Option Nat :=
  if i = 0 then some 0
  else if i = selfIdx then none
  else some i

/-- `_execute_police_investigation` run by party `selfIdx` among `n`
players on the target's encrypted role vector.  `net i` is the reply of
party `i` to the fanned-out `/investigate_parallel` request: `some s` is a
returned share, `none` is a timeout or error (caught and turned into `None`
by `collect_partial`).  Returns the list of shares actually fused (the
investigator's own share first, then each collected reply in party order)
and the fused plaintext. -/
def execute_police_investigation (selfIdx n : Nat) (targetRoleEnc : Ct)
    (net : Nat → Option Share) : List Share × List Int :=
  let investigateResultEnc := homomorphic_dot_product targetRoleEnc mafia_check_vector
  let myShare := decryptShare selfIdx investigateResultEnc
  let tasks := (List.range n).filter
    (fun i => i ≠ selfIdx ∧ (investigation_address selfIdx i).isSome)
  let gathered := tasks.map net
  let allShares := myShare :: gathered.filterMap id
  (allShares, fusion_decrypt allShares)

/-! ## Blind role decryption (`/complete_role_decryption`,
`src/player.py` 680-757) -/

/-- The cryptographic core of `/complete_role_decryption`: deserialize the
received shares in order, compute the agent's own share of its stored
encrypted role and append it LAST, fuse, truncate to `NUM_ROLE_TYPES`, and
map the one-hot coordinate to the role label that becomes `state.role`.
Returns (fused share list, truncated plaintext, assigned role). -/
def complete_role_decryption (selfIdx : Nat) (myEncryptedRole : Ct)
    (received : List Share) : List Share × List Int × String :=
  let myShare := decryptShare selfIdx myEncryptedRole
  let allShares := received ++ [myShare]
  let vec := (fusion_decrypt allShares).take NUM_ROLE_TYPES
  (allShares, vec, one_hot_to_role vec)

/-! ## Suspicion notes (`src/suspicion.py`) -/

/-- `SuspicionNote` (`src/suspicion.py` 31-74); levels are stored as the
enum's string value. -/
structure SuspicionNote where
  player_index : Nat
  level : String
  reasoning : String
  is_confirmed : Bool
  turn : Nat
  is_dead : Bool
deriving DecidableEq

/-- The values of `SuspicionLevel` (non-police roles). -/
def basicLevels : List String :=
  ["high", "medium", "low", "neutral", "unknown"]

/-- The values of `PoliceSuspicionLevel`. -/
def policeLevels : List String :=
  ["confirmed_mafia", "confirmed_not_mafia", "suspected_doctor",
   "suspected_citizen", "high", "medium", "low", "neutral", "unknown"]

/-- `LEVEL_ENUM` membership of a level string: the basic enum for
`SuspicionNoteManager`, the extended enum for `PoliceNoteManager`. -/
def validLevels (isPolice : Bool) : List String :=
  if isPolice then policeLevels else basicLevels

/-- The manager state: `num_players`, own `player_index`, whether the
manager is a `PoliceNoteManager`, and the `notes` dict (keyed association
list, one entry per player index). -/
structure SuspicionNoteManager where
  num_players : Nat
  player_index : Nat
  isPolice : Bool
  notes : List (Nat × SuspicionNote)
deriving DecidableEq

/-- Dict lookup `self.notes.get(i)`. -/
def getNote (notes : List (Nat × SuspicionNote)) (i : Nat) :
    Option SuspicionNote :=
  match notes.find? (fun p => p.1 = i) with
  | some p => some p.2
  | none => none

/-- Dict assignment `self.notes[i] = v`: replaces any entry keyed `i`. -/
def setNote (notes : List (Nat × SuspicionNote)) (i : Nat)
    (v : SuspicionNote) : List (Nat × SuspicionNote) :=
  (i, v) :: notes.filter (fun p => p.1 ≠ i)

/-- The return branches of `write_note`, in source order: writing about
oneself, an out-of-range index, a note locked by a confirmed investigation
result, an unparsable suspicion level, or a successful create/update. -/
inductive WriteOutcome where
  | selfTarget
  | invalidIndex
  | confirmedLocked
  | invalidLevel
  | updated
deriving DecidableEq

/-- `SuspicionNoteManager.write_note` (`src/suspicion.py` 96-133).  Guards in
source order: `target == self` is refused; an out-of-range index is refused;
an existing note with `is_confirmed` (i.e. `not can_update()`) is refused
and the notes dict is left untouched; an invalid level string is refused;
otherwise the note for `target` is created or replaced wholesale. -/
def SuspicionNoteManager.write_note (m : SuspicionNoteManager) (target : Nat)
    (level reasoning : String) (turn : Nat) (is_confirmed : Bool) :
    WriteOutcome × SuspicionNoteManager :=
  if target = m.player_index then (.selfTarget, m)
  else if m.num_players ≤ target then (.invalidIndex, m)
  else
    let locked :=
      match getNote m.notes target with
      | some existing => existing.is_confirmed
      | none => false
    if locked then (.confirmedLocked, m)
    else if level ∈ validLevels m.isPolice then
      let note : SuspicionNote := ⟨target, level, reasoning, is_confirmed, turn, false⟩
      (.updated, { m with notes := setNote m.notes target note })
    else (.invalidLevel, m)

/-- `PoliceNoteManager.add_investigation_result` (`src/suspicion.py`
175-202).  Stores a `confirmed_mafia` or `confirmed_not_mafia` note
whose `is_confirmed` flag equals `is_mafia`: only a MAFIA result is locked
against later updates. -/
def PoliceNoteManager.add_investigation_result (m : SuspicionNoteManager)
    (target : Nat) (is_mafia : Bool) (turn : Nat) :
    WriteOutcome × SuspicionNoteManager :=
  if target = m.player_index then (.selfTarget, m)
  else if m.num_players ≤ target then (.invalidIndex, m)
  else
    let lvl := if is_mafia then "confirmed_mafia" else "confirmed_not_mafia"
    let note : SuspicionNote :=
      ⟨target, lvl, "Police investigation result", is_mafia, turn, false⟩
    (.updated, { m with notes := setNote m.notes target note })

/-! ## Claim C1 -/

/-- C1: the claim says a non-final relay hop always returns the accumulated
share list and never a decrypted plaintext, fusion being performed only by
the original requester.  Evaluating the code at a 3-party chain
(requester → party 1 → party 2, ciphertext Enc(one-hot 4 at 1)): party 2,
the final hop, does return the share list, but party 1 — a mid-chain share
contributor with `remaining_order = [2]`, not the requester — performs the
fusion itself and returns the decrypted plaintext vector `[0, 1, 0, 0]` to
its caller. -/
theorem C1_midchain_hop_returns_fused_plaintext :
    relay_decrypt (Ct.oneHot 4 1) 2 [decryptShare 1 (Ct.oneHot 4 1)] [] =
      RelayResult.shareList
        [decryptShare 1 (Ct.oneHot 4 1), decryptShare 2 (Ct.oneHot 4 1)]
    ∧ relay_decrypt (Ct.oneHot 4 1) 1 [] [2] =
      RelayResult.decrypted [0, 1, 0, 0] := by
  exact ⟨rfl, by decide⟩

/-! ## Claim C2 -/

/-- C2 counterexample: starting the chain exactly as the claim states —
party 0 sends `{ciphertext, shares=[], remainingOrder=[1, 2]}` (N = 3) to
party 1, the first party in `remainingOrder` — the requester receives a
decrypted vector, not a share list at all, and the share list the chain
accumulated and fused is
`[share of 1, share of 1, share of 2]`: party 1 contributed twice, party 0
not at all, so the list is neither duplicate-free nor one-per-party. -/
theorem C2_counterexample_duplicate_share :
    relay_decrypt (Ct.oneHot 3 0) 1 [] [1, 2] =
      RelayResult.decrypted (fusion_decrypt
        (([] : List Share) ++
          ([1, 1, 2].map (fun p => decryptShare p (Ct.oneHot 3 0)))))
    ∧ ¬ (([1, 1, 2].map (fun p => decryptShare p (Ct.oneHot 3 0))).map
          Share.owner).Nodup
    ∧ decryptShare 0 (Ct.oneHot 3 0) ∉
        ([1, 1, 2].map (fun p => decryptShare p (Ct.oneHot 3 0))) := by
  refine ⟨by decide, by decide, by decide⟩

/-- C2 (amended): under the code's convention the party that receives a
relay request is not itself listed in `remaining_order` — the chain collects
one share from the recipient and then one per entry of `remaining_order`, in
order.  Hence a chain whose first recipient is party 0 with
`remaining_order = [1, ..., N-1]` fuses exactly N shares, one contributed by
each of the N parties, with no duplicate contributors; the fused result (not
the share list) is what comes back to the requester. -/
theorem C2_relay_chain_one_share_per_party (c : Ct) (k : Nat) (hk : 1 ≤ k) :
    relay_decrypt c 0 [] (List.range' 1 k) =
      RelayResult.decrypted (fusion_decrypt
        ((List.range (k + 1)).map (fun p => decryptShare p c)))
    ∧ ((List.range (k + 1)).map (fun p => decryptShare p c)).length = k + 1
    ∧ (((List.range (k + 1)).map (fun p => decryptShare p c)).map
        Share.owner).Nodup := by
  obtain ⟨m, rfl⟩ : ∃ m, k = m + 1 := ⟨k - 1, (Nat.succ_pred_eq_of_pos hk).symm⟩
  refine ⟨?_, by simp, ?_⟩
  · rw [relay_decrypt_eq c (List.range' 1 (m + 1)) 0 [], List.range'_succ]
    have hrange : List.range (m + 1 + 1) = 0 :: List.range' 1 (m + 1) := by
      rw [List.range_eq_range', List.range'_succ]
    rw [hrange, List.range'_succ]
    simp
  · have : ((List.range (m + 1 + 1)).map (fun p => decryptShare p c)).map
        Share.owner = List.range (m + 1 + 1) := by
      rw [List.map_map]
      exact List.map_id'' (fun _ => rfl) _
    rw [this]
    exact List.nodup_range _

/-- C2 witness: the amended theorem at a 3-party chain (k = 2). -/
theorem C2_relay_chain_witness :
    relay_decrypt (Ct.raw 5) 0 [] (List.range' 1 2) =
      RelayResult.decrypted (fusion_decrypt
        ((List.range 3).map (fun p => decryptShare p (Ct.raw 5))))
    ∧ ((List.range 3).map (fun p => decryptShare p (Ct.raw 5))).length = 3
    ∧ (((List.range 3).map (fun p => decryptShare p (Ct.raw 5))).map
        Share.owner).Nodup :=
  C2_relay_chain_one_share_per_party (Ct.raw 5) 2 (by decide)

/-! ## Claim C3 -/

/-- C3 counterexample: `DKGRoundRequest` carries no game identifier and
`dkg_round` performs no game-identifier check: on two agent states that are
identical except for the game id fixed at setup ("g" vs "h"), the very same
round request succeeds on both and returns the very same public key — a
round invocation coming from a different game is not failed. -/
theorem C3_counterexample_dkg_round_ignores_game_id :
    dkg_round ⟨some "g", true, some KeyPair.leadKey⟩ ⟨2, some "pk0"⟩
      = .ok ("pk-join-of-pk0", ⟨some "g", true, some (KeyPair.joinKey "pk0")⟩)
    ∧ dkg_round ⟨some "h", true, some KeyPair.leadKey⟩ ⟨2, some "pk0"⟩
      = .ok ("pk-join-of-pk0", ⟨some "h", true, some (KeyPair.joinKey "pk0")⟩) :=
  ⟨rfl, rfl⟩

/-- C3 (amended): the key-switch round and the multi-mult-key round do fail
with an error whenever the request's game identifier differs from the one
fixed at setup (and neither handler ever writes agent state), but the
public-key chain round `dkg_round` carries no game identifier at all and
performs no such check: whenever the crypto context is initialized and a
previous public key is supplied, it succeeds regardless of which game the
caller belongs to. -/
theorem C3_gameid_check_only_multkey_rounds (st : DKGState)
    (req1 : KeySwitchGenRequest) (req2 : MultMultKeyRequest)
    (h1 : req1.game_id ≠ st.game_id) (h2 : req2.game_id ≠ st.game_id) :
    (∃ e, generate_keyswitchgen st req1 = .error e)
    ∧ (∃ e, generate_multmultkey st req2 = .error e)
    ∧ (∀ r : DKGRoundRequest, st.cc_initialized = true →
        ∀ pk, r.previous_public_key = some pk →
          ∃ out, dkg_round st r = .ok out) := by
  refine ⟨?_, ?_, ?_⟩
  · by_cases hinit : st.cc_initialized = false ∨ st.keypair = none
    · exact ⟨"Keys not initialized. Complete DKG first.",
        by unfold generate_keyswitchgen; rw [if_pos hinit]⟩
    · exact ⟨"Game ID mismatch",
        by unfold generate_keyswitchgen; rw [if_neg hinit, if_pos h1]⟩
  · by_cases hinit : st.cc_initialized = false ∨ st.keypair = none
    · exact ⟨"Keys not initialized. Complete DKG first.",
        by unfold generate_multmultkey; rw [if_pos hinit]⟩
    · exact ⟨"Game ID mismatch",
        by unfold generate_multmultkey; rw [if_neg hinit, if_pos h2]⟩
  · intro r hcc pk hpk
    unfold dkg_round
    rw [hcc]
    simp only [Bool.true_eq_false, if_false, hpk]
    by_cases hone : r.round_number = 1 ∧ some pk = none
    · exact absurd hone.2 (by simp)
    · rw [if_neg hone]
      exact ⟨_, rfl⟩

/-- C3 witness: the amended theorem at a concrete state for game "g" and
requests tagged game "h". -/
theorem C3_gameid_check_witness :
    (∃ e, generate_keyswitchgen ⟨some "g", true, some KeyPair.leadKey⟩
        ⟨some "h", some "prev"⟩ = .error e)
    ∧ (∃ e, generate_multmultkey ⟨some "g", true, some KeyPair.leadKey⟩
        ⟨some "h", some "comb", some "tag"⟩ = .error e)
    ∧ (∀ r : DKGRoundRequest,
        (⟨some "g", true, some KeyPair.leadKey⟩ : DKGState).cc_initialized = true →
        ∀ pk, r.previous_public_key = some pk →
          ∃ out, dkg_round ⟨some "g", true, some KeyPair.leadKey⟩ r = .ok out) :=
  C3_gameid_check_only_multkey_rounds ⟨some "g", true, some KeyPair.leadKey⟩
    ⟨some "h", some "prev"⟩ ⟨some "h", some "comb", some "tag"⟩
    (by decide) (by decide)

/-! ## Claim C4 -/

/-- C4: the claim says every live party, whatever its role, broadcasts a
decoy investigate request to every other party each night round.  Evaluating
`handle_night_phase` at a 4-player night round: only the citizen branch
schedules `send_dummy_investigation_packets` (here player 0, reaching
players 1, 2, 3); a mafia, doctor or police party issues no decoy broadcast
at all. -/
theorem C4_decoys_sent_only_by_citizen :
    handle_night_phase_decoys Role.mafia 1 4 = []
    ∧ handle_night_phase_decoys Role.doctor 2 4 = []
    ∧ handle_night_phase_decoys Role.police 3 4 = []
    ∧ handle_night_phase_decoys Role.citizen 0 4 = [1, 2, 3] := by
  decide

/-! ## Claim C5 -/

/-- Whether an encrypted action vector carries a one-hot payload. -/
def EncVec.isOneHotVec (e : EncVec) : Bool :=
  match e.payload with
  | .oneHot _ _ => true
  | .zero _ => false

/-- How many of the three fields of a response carry a one-hot payload. -/
def oneHotCount (r : ActionResponse) : Nat :=
  (if r.vote_vector.isOneHotVec then 1 else 0) +
  (if r.attack_vector.isOneHotVec then 1 else 0) +
  (if r.heal_vector.isOneHotVec then 1 else 0)


/-- The payload the vote-phase handler puts into the vote field. -/
def votePayload (n : Nat) (target : Option Int) : Vec :=
  match target with
  | some t => if 0 ≤ t then Vec.oneHot n t else Vec.zero n
  | none => Vec.zero n

/-- Characterization of the vote-phase triple: a possibly one-hot vote and
two fresh zero vectors, three distinct encryption calls. -/
theorem handle_vote_phase_vectors_eq (n : Nat) (target : Option Int) (ctr : Nat) :
    handle_vote_phase_vectors n target ctr =
      ((⟨votePayload n target, ctr⟩, ⟨Vec.zero n, ctr + 1⟩, ⟨Vec.zero n, ctr + 2⟩),
       ctr + 3) := by
  rcases target with _ | t
  · rfl
  · by_cases h : 0 ≤ t <;>
      simp [handle_vote_phase_vectors, votePayload, h,
        create_one_hot_vector, create_zero_vector]

/-- Characterization of the night triple: a zero vote, and attack/heal that
are zero vectors unless the role is mafia (attack) or doctor (heal) with a
chosen target, in which case that single field is a fresh one-hot; the three
fields always come from three distinct encryption calls. -/
theorem generate_night_work_vectors_night_eq (n : Nat) (role : Role)
    (target : Option Int) (ctr : Nat) :
    generate_night_work_vectors n role "night" target ctr =
      match role, target with
      | .mafia, some t =>
          ((⟨Vec.zero n, ctr⟩, ⟨Vec.oneHot n t, ctr + 3⟩, ⟨Vec.zero n, ctr + 2⟩),
           ctr + 4)
      | .doctor, some t =>
          ((⟨Vec.zero n, ctr⟩, ⟨Vec.zero n, ctr + 1⟩, ⟨Vec.oneHot n t, ctr + 3⟩),
           ctr + 4)
      | _, _ =>
          ((⟨Vec.zero n, ctr⟩, ⟨Vec.zero n, ctr + 1⟩, ⟨Vec.zero n, ctr + 2⟩),
           ctr + 3) := by
  rcases role <;> rcases target with _ | t <;> rfl

/-- Dispatch of `/request_action` for a live party: the vote phase answers
with the vote-phase triple, the night phase with the night triple, and every
other phase with a single zero ciphertext duplicated into all three
fields. -/
theorem request_action_live_eq (n selfIdx : Nat) (role : Role) (phase : String)
    (survivors : List Nat) (vt nt : Option Int) (ctr : Nat)
    (halive : selfIdx ∈ survivors) :
    request_action n selfIdx true role phase survivors vt nt ctr =
      (if phase = "vote" then
        ((⟨(handle_vote_phase_vectors n vt ctr).1.1,
           (handle_vote_phase_vectors n vt ctr).1.2.1,
           (handle_vote_phase_vectors n vt ctr).1.2.2, phase⟩, true),
         (handle_vote_phase_vectors n vt ctr).2)
      else if phase = "night" then
        ((⟨(generate_night_work_vectors n role "night" nt ctr).1.1,
           (generate_night_work_vectors n role "night" nt ctr).1.2.1,
           (generate_night_work_vectors n role "night" nt ctr).1.2.2, phase⟩, true),
         (generate_night_work_vectors n role "night" nt ctr).2)
      else
        ((⟨⟨Vec.zero n, ctr⟩, ⟨Vec.zero n, ctr⟩, ⟨Vec.zero n, ctr⟩, phase⟩, true),
         ctr + 1)) := by
  unfold request_action
  have hal : (if selfIdx ∈ survivors then true else false) = true := by
    simp [halive]
  rw [hal]
  by_cases h1 : phase = "vote"
  · simp [h1]
  · by_cases h2 : phase = "night"
    · simp [h1, h2]
    · by_cases h3 : phase ∈ ["chat", "day"]
      · simp [h1, h2, h3, create_zero_vector]
      · simp [h1, h2, h3, create_zero_vector]

/-- C5: every `/request_action` response of a live party consists of exactly
the three fields vote, attack, heal, all of payload shape `num_players`; at
most one of them is a one-hot vector, and only in the allowed position (the
vote in the vote phase; the attack for a mafia or the heal for a doctor with
a chosen target in the night phase); every field that is not that one-hot is
the all-zero vector; and a citizen's or police's night triple is all
zero-vectors. -/
theorem C5_live_action_triple (n selfIdx : Nat) (role : Role) (phase : String)
    (survivors : List Nat) (vt nt : Option Int) (ctr : Nat)
    (halive : selfIdx ∈ survivors) :
    (((request_action n selfIdx true role phase survivors vt nt ctr).1).1.vote_vector.payload.shape = n
      ∧ ((request_action n selfIdx true role phase survivors vt nt ctr).1).1.attack_vector.payload.shape = n
      ∧ ((request_action n selfIdx true role phase survivors vt nt ctr).1).1.heal_vector.payload.shape = n)
    ∧ oneHotCount ((request_action n selfIdx true role phase survivors vt nt ctr).1).1 ≤ 1
    ∧ (((request_action n selfIdx true role phase survivors vt nt ctr).1).1.vote_vector.isOneHotVec = true →
        phase = "vote")
    ∧ (((request_action n selfIdx true role phase survivors vt nt ctr).1).1.attack_vector.isOneHotVec = true →
        phase = "night" ∧ role = Role.mafia ∧ nt.isSome = true)
    ∧ (((request_action n selfIdx true role phase survivors vt nt ctr).1).1.heal_vector.isOneHotVec = true →
        phase = "night" ∧ role = Role.doctor ∧ nt.isSome = true)
    ∧ (phase = "night" → role = Role.citizen ∨ role = Role.police →
        ((request_action n selfIdx true role phase survivors vt nt ctr).1).1.vote_vector.payload = Vec.zero n
        ∧ ((request_action n selfIdx true role phase survivors vt nt ctr).1).1.attack_vector.payload = Vec.zero n
        ∧ ((request_action n selfIdx true role phase survivors vt nt ctr).1).1.heal_vector.payload = Vec.zero n)
    ∧ (((request_action n selfIdx true role phase survivors vt nt ctr).1).1.vote_vector.isOneHotVec = false →
        ((request_action n selfIdx true role phase survivors vt nt ctr).1).1.vote_vector.payload = Vec.zero n)
    ∧ (((request_action n selfIdx true role phase survivors vt nt ctr).1).1.attack_vector.isOneHotVec = false →
        ((request_action n selfIdx true role phase survivors vt nt ctr).1).1.attack_vector.payload = Vec.zero n)
    ∧ (((request_action n selfIdx true role phase survivors vt nt ctr).1).1.heal_vector.isOneHotVec = false →
        ((request_action n selfIdx true role phase survivors vt nt ctr).1).1.heal_vector.payload = Vec.zero n) := by
  rw [request_action_live_eq n selfIdx role phase survivors vt nt ctr halive]
  by_cases h1 : phase = "vote"
  · simp only [if_pos h1, handle_vote_phase_vectors_eq]
    rcases vt with _ | tv
    · simp [votePayload, oneHotCount, EncVec.isOneHotVec, Vec.shape, h1]
    · by_cases ht : 0 ≤ tv <;>
        simp [votePayload, ht, oneHotCount, EncVec.isOneHotVec, Vec.shape, h1]
  · by_cases h2 : phase = "night"
    · simp only [if_neg h1, if_pos h2, generate_night_work_vectors_night_eq]
      rcases role <;> rcases nt with _ | tn <;>
        simp [oneHotCount, EncVec.isOneHotVec, Vec.shape, h1, h2]
    · simp only [if_neg h1, if_neg h2]
      simp [oneHotCount, EncVec.isOneHotVec, Vec.shape, h1, h2]

/-- C5 witness: the live-triple theorem at a concrete night request of a
live mafia (4 players, survivors `[0, 2, 3]`, agent 2, target 0). -/
theorem C5_live_action_triple_witness :
    oneHotCount ((request_action 4 2 true Role.mafia "night" [0, 2, 3]
      none (some 0) 0).1).1 ≤ 1 :=
  (C5_live_action_triple 4 2 Role.mafia "night" [0, 2, 3] none (some 0) 0
    (by decide)).2.1

/-! ## Claim C6 -/

/-- The fan-out target set of the parallel investigation is every other
party: the address table is `None` only at the investigator's own index. -/
theorem investigation_tasks_eq (selfIdx n : Nat) :
    (List.range n).filter
        (fun i => i ≠ selfIdx ∧ (investigation_address selfIdx i).isSome)
      = (List.range n).filter (fun i => i ≠ selfIdx) := by
  apply List.filter_congr
  intro i _
  by_cases hs : i = selfIdx
  · simp [hs]
  · by_cases h0 : i = 0 <;> simp [investigation_address, hs, h0]

/-- C6: the parallel investigation computes the investigator's own partial
share of the dot-product ciphertext first (it heads the fused list and does
not depend on any reply), fans the request out to every other party, keeps
exactly the shares of the parties that replied — a non-responding party's
share is silently dropped — and fuses exactly that collected list, with no
N-of-N completeness check and no error. -/
theorem C6_investigation_fuses_collected (selfIdx n : Nat) (targetRoleEnc : Ct)
    (net : Nat → Option Share) :
    (execute_police_investigation selfIdx n targetRoleEnc net).1
      = decryptShare selfIdx (Ct.dot targetRoleEnc mafia_check_vector)
        :: ((List.range n).filter (fun i => i ≠ selfIdx)).filterMap net
    ∧ (execute_police_investigation selfIdx n targetRoleEnc net).2
      = fusion_decrypt ((execute_police_investigation selfIdx n targetRoleEnc net).1)
    ∧ ((execute_police_investigation selfIdx n targetRoleEnc net).1).length
      = 1 + (((List.range n).filter (fun i => i ≠ selfIdx)).filterMap net).length := by
  refine ⟨?_, rfl, ?_⟩
  · show decryptShare selfIdx (homomorphic_dot_product targetRoleEnc mafia_check_vector)
        :: (((List.range n).filter
              (fun i => i ≠ selfIdx ∧ (investigation_address selfIdx i).isSome)).map
            net).filterMap id = _
    rw [investigation_tasks_eq, List.filterMap_map]
    rfl
  · show (decryptShare selfIdx (homomorphic_dot_product targetRoleEnc mafia_check_vector)
        :: (((List.range n).filter
              (fun i => i ≠ selfIdx ∧ (investigation_address selfIdx i).isSome)).map
            net).filterMap id).length = _
    rw [investigation_tasks_eq, List.filterMap_map]
    simp [Nat.add_comm]

/-! ## Claim C7 -/

/-- C7: when the owner completes decryption of its own role ciphertext, its
own share is appended after all received shares (it is the last element of
the fused list), the complete set is fused, and the recovered one-hot
coordinate is mapped back to the role label that becomes the party's role. -/
theorem C7_own_share_last_then_fuse (selfIdx : Nat) (received : List Share)
    (r : Nat) (hr : r < NUM_ROLE_TYPES)
    (hrecv : ∀ s ∈ received, s.ct = Ct.oneHot NUM_ROLE_TYPES (r : Int)) :
    (complete_role_decryption selfIdx (Ct.oneHot NUM_ROLE_TYPES (r : Int)) received).1
      = received ++ [decryptShare selfIdx (Ct.oneHot NUM_ROLE_TYPES (r : Int))]
    ∧ ((complete_role_decryption selfIdx (Ct.oneHot NUM_ROLE_TYPES (r : Int)) received).1).getLast?
      = some (decryptShare selfIdx (Ct.oneHot NUM_ROLE_TYPES (r : Int)))
    ∧ (complete_role_decryption selfIdx (Ct.oneHot NUM_ROLE_TYPES (r : Int)) received).2.2
      = ROLE_TYPES.getD r "unknown" := by
  refine ⟨rfl, List.getLast?_concat _, ?_⟩
  have hfuse : fusion_decrypt
      (received ++ [decryptShare selfIdx (Ct.oneHot NUM_ROLE_TYPES (r : Int))])
      = (Ct.oneHot NUM_ROLE_TYPES (r : Int)).plain := by
    cases received with
    | nil => rfl
    | cons s t =>
      have := hrecv s (by simp)
      simp [fusion_decrypt, this]
  show one_hot_to_role ((fusion_decrypt
      (received ++ [decryptShare selfIdx (Ct.oneHot NUM_ROLE_TYPES (r : Int))])).take
        NUM_ROLE_TYPES) = _
  rw [hfuse]
  have hr4 : r < 4 := hr
  interval_cases r <;> decide

/-- C7 witness: party 3 of a 4-party game, mafia role ciphertext
(one-hot at coordinate 1), shares of parties 0, 1, 2 received first. -/
theorem C7_own_share_last_witness :
    (complete_role_decryption 3 (Ct.oneHot NUM_ROLE_TYPES ((1 : Nat) : Int))
      [decryptShare 0 (Ct.oneHot NUM_ROLE_TYPES ((1 : Nat) : Int)),
       decryptShare 1 (Ct.oneHot NUM_ROLE_TYPES ((1 : Nat) : Int)),
       decryptShare 2 (Ct.oneHot NUM_ROLE_TYPES ((1 : Nat) : Int))]).1
      = [decryptShare 0 (Ct.oneHot NUM_ROLE_TYPES ((1 : Nat) : Int)),
         decryptShare 1 (Ct.oneHot NUM_ROLE_TYPES ((1 : Nat) : Int)),
         decryptShare 2 (Ct.oneHot NUM_ROLE_TYPES ((1 : Nat) : Int))] ++
        [decryptShare 3 (Ct.oneHot NUM_ROLE_TYPES ((1 : Nat) : Int))]
    ∧ ((complete_role_decryption 3 (Ct.oneHot NUM_ROLE_TYPES ((1 : Nat) : Int))
      [decryptShare 0 (Ct.oneHot NUM_ROLE_TYPES ((1 : Nat) : Int)),
       decryptShare 1 (Ct.oneHot NUM_ROLE_TYPES ((1 : Nat) : Int)),
       decryptShare 2 (Ct.oneHot NUM_ROLE_TYPES ((1 : Nat) : Int))]).1).getLast?
      = some (decryptShare 3 (Ct.oneHot NUM_ROLE_TYPES ((1 : Nat) : Int)))
    ∧ (complete_role_decryption 3 (Ct.oneHot NUM_ROLE_TYPES ((1 : Nat) : Int))
      [decryptShare 0 (Ct.oneHot NUM_ROLE_TYPES ((1 : Nat) : Int)),
       decryptShare 1 (Ct.oneHot NUM_ROLE_TYPES ((1 : Nat) : Int)),
       decryptShare 2 (Ct.oneHot NUM_ROLE_TYPES ((1 : Nat) : Int))]).2.2
      = ROLE_TYPES.getD 1 "unknown" :=
  C7_own_share_last_then_fuse 3
    [decryptShare 0 (Ct.oneHot NUM_ROLE_TYPES ((1 : Nat) : Int)),
     decryptShare 1 (Ct.oneHot NUM_ROLE_TYPES ((1 : Nat) : Int)),
     decryptShare 2 (Ct.oneHot NUM_ROLE_TYPES ((1 : Nat) : Int))]
    1 (by decide) (by decide)

/-! ## Claim C8 -/

/-- The insertion loop never fails on well-formed keys: duplicates are
counted as skips, everything else is inserted, and the final store is
`insertAll`. -/
theorem receive_mult_keys_loop_good (ids : List String) :
    ∀ (store : List String) (i s : Nat),
      ∃ ins skip,
        receive_mult_keys_loop store (ids.map MultKey.good) i s
          = .ok (insertAll store ids, ins, skip)
        ∧ ins + skip = i + s + ids.length := by
  induction ids with
  | nil => intro store i s; exact ⟨i, s, rfl, by simp⟩
  | cons id rest ih =>
    intro store i s
    by_cases hmem : id ∈ store
    · obtain ⟨ins, skip, h, hsum⟩ := ih store i (s + 1)
      refine ⟨ins, skip, ?_, by simp at hsum ⊢; omega⟩
      simpa [receive_mult_keys_loop, deserialize_eval_mult_key, hmem,
        insertAll] using h
    · obtain ⟨ins, skip, h, hsum⟩ := ih (store ++ [id]) (i + 1) s
      refine ⟨ins, skip, ?_, by simp at hsum ⊢; omega⟩
      simpa [receive_mult_keys_loop, deserialize_eval_mult_key, hmem,
        insertAll] using h

/-- `insertAll` only grows the store. -/
theorem mem_insertAll_of_mem (ids : List String) :
    ∀ (store : List String) (x : String), x ∈ store → x ∈ insertAll store ids := by
  induction ids with
  | nil => intro store x hx; exact hx
  | cons id rest ih =>
    intro store x hx
    unfold insertAll
    by_cases hmem : id ∈ store
    · rw [if_pos hmem]; exact ih store x hx
    · rw [if_neg hmem]; exact ih (store ++ [id]) x (by simp [hx])

/-- Every inserted id ends up in the final store. -/
theorem mem_insertAll_self (ids : List String) :
    ∀ (store : List String) (x : String), x ∈ ids → x ∈ insertAll store ids := by
  induction ids with
  | nil => intro store x hx; cases hx
  | cons id rest ih =>
    intro store x hx
    rcases List.mem_cons.mp hx with h | h
    · subst h
      unfold insertAll
      by_cases hmem : x ∈ store
      · rw [if_pos hmem]; exact mem_insertAll_of_mem rest store x hmem
      · rw [if_neg hmem]
        exact mem_insertAll_of_mem rest (store ++ [x]) x (by simp)
    · unfold insertAll
      by_cases hmem : id ∈ store
      · rw [if_pos hmem]; exact ih store x h
      · rw [if_neg hmem]; exact ih (store ++ [id]) x h

/-- C8: with a matching game id and an initialized context,
`/receive_mult_keys` on any list of well-formed key fragments — in
particular one containing a fragment already present, such as the party's
own key — returns success, not an error: the already-present key is skipped,
every remaining key is still inserted (each given id is in the final store),
and the insert and skip counts add up to the number of keys. -/
theorem C8_duplicate_key_is_success (gid : Option String)
    (store : List String) (ids : List String) :
    (∃ ins skip,
      receive_mult_keys gid true store gid (ids.map MultKey.good)
        = .ok (insertAll store ids, ins, skip)
      ∧ ins + skip = ids.length)
    ∧ (∀ id ∈ ids, id ∈ insertAll store ids) := by
  constructor
  · obtain ⟨ins, skip, h, hsum⟩ := receive_mult_keys_loop_good ids store 0 0
    refine ⟨ins, skip, ?_, by omega⟩
    simpa [receive_mult_keys] using h
  · intro id hid
    exact mem_insertAll_self ids store id hid

/-- C8 witness: store already holding the party's own key `k1`, incoming
fragments `[k1, k2]`: the handler succeeds, skipping one and inserting
one. -/
theorem C8_duplicate_key_witness :
    (∃ ins skip,
      receive_mult_keys (some "g") true ["k1"] (some "g")
          (["k1", "k2"].map MultKey.good)
        = .ok (insertAll ["k1"] ["k1", "k2"], ins, skip)
      ∧ ins + skip = (["k1", "k2"] : List String).length)
    ∧ (∀ id ∈ (["k1", "k2"] : List String), id ∈ insertAll ["k1"] ["k1", "k2"]) :=
  C8_duplicate_key_is_success (some "g") ["k1"] ["k1", "k2"]

/-! ## Claim C9 -/

/-- C9 counterexample: the claim's contrast — that a LIVE party's response
consists of three independently encrypted (hence pairwise distinct)
ciphertexts — fails in the chat phase: a live citizen answering a "chat"
`/request_action` gets ONE zero ciphertext duplicated into all three
fields, exactly like a dead party. -/
theorem C9_counterexample_live_chat_identical_fields :
    ((request_action 4 1 true Role.citizen "chat" [0, 1, 2, 3] none none 0).1.2
      = true)
    ∧ (request_action 4 1 true Role.citizen "chat" [0, 1, 2, 3] none none 0).1.1.vote_vector
      = (request_action 4 1 true Role.citizen "chat" [0, 1, 2, 3] none none 0).1.1.attack_vector
    ∧ (request_action 4 1 true Role.citizen "chat" [0, 1, 2, 3] none none 0).1.1.attack_vector
      = (request_action 4 1 true Role.citizen "chat" [0, 1, 2, 3] none none 0).1.1.heal_vector := by
  refine ⟨by decide, by decide, by decide⟩

/-- C9 (amended): a party whose index is missing from `survivors` marks
itself dead and answers with one single zero-vector ciphertext duplicated
into all three fields, so its vote, attack and heal fields are byte
identical.  A live party's three fields are three independently encrypted,
pairwise distinct ciphertexts in the vote and night phases — but in the
chat/day phases (and any unrecognized phase) a live party likewise
duplicates a single zero ciphertext into all three fields. -/
theorem C9_dead_single_ciphertext (n selfIdx : Nat) (aliveIn : Bool)
    (role : Role) (phase : String) (surv : List Nat) (vt nt : Option Int)
    (ctr : Nat) :
    (selfIdx ∉ surv →
      ((request_action n selfIdx aliveIn role phase surv vt nt ctr).1.2 = false
       ∧ (request_action n selfIdx aliveIn role phase surv vt nt ctr).1.1.vote_vector
          = ⟨Vec.zero n, ctr⟩
       ∧ (request_action n selfIdx aliveIn role phase surv vt nt ctr).1.1.attack_vector
          = (request_action n selfIdx aliveIn role phase surv vt nt ctr).1.1.vote_vector
       ∧ (request_action n selfIdx aliveIn role phase surv vt nt ctr).1.1.heal_vector
          = (request_action n selfIdx aliveIn role phase surv vt nt ctr).1.1.vote_vector))
    ∧ (selfIdx ∈ surv → aliveIn = true → phase = "vote" →
        ((request_action n selfIdx aliveIn role phase surv vt nt ctr).1.1.vote_vector
          ≠ (request_action n selfIdx aliveIn role phase surv vt nt ctr).1.1.attack_vector
         ∧ (request_action n selfIdx aliveIn role phase surv vt nt ctr).1.1.vote_vector
          ≠ (request_action n selfIdx aliveIn role phase surv vt nt ctr).1.1.heal_vector
         ∧ (request_action n selfIdx aliveIn role phase surv vt nt ctr).1.1.attack_vector
          ≠ (request_action n selfIdx aliveIn role phase surv vt nt ctr).1.1.heal_vector))
    ∧ (selfIdx ∈ surv → aliveIn = true → phase = "night" →
        ((request_action n selfIdx aliveIn role phase surv vt nt ctr).1.1.vote_vector
          ≠ (request_action n selfIdx aliveIn role phase surv vt nt ctr).1.1.attack_vector
         ∧ (request_action n selfIdx aliveIn role phase surv vt nt ctr).1.1.vote_vector
          ≠ (request_action n selfIdx aliveIn role phase surv vt nt ctr).1.1.heal_vector
         ∧ (request_action n selfIdx aliveIn role phase surv vt nt ctr).1.1.attack_vector
          ≠ (request_action n selfIdx aliveIn role phase surv vt nt ctr).1.1.heal_vector))
    ∧ (selfIdx ∈ surv → aliveIn = true → phase = "chat" ∨ phase = "day" →
        ((request_action n selfIdx aliveIn role phase surv vt nt ctr).1.1.vote_vector
          = (request_action n selfIdx aliveIn role phase surv vt nt ctr).1.1.attack_vector
         ∧ (request_action n selfIdx aliveIn role phase surv vt nt ctr).1.1.attack_vector
          = (request_action n selfIdx aliveIn role phase surv vt nt ctr).1.1.heal_vector)) := by
  refine ⟨?_, ?_, ?_, ?_⟩
  · intro h
    simp [request_action, h, create_zero_vector]
  · intro hs ha hp
    subst ha; subst hp
    rw [request_action_live_eq n selfIdx role "vote" surv vt nt ctr hs]
    simp [handle_vote_phase_vectors_eq, EncVec.mk.injEq]
  · intro hs ha hp
    subst ha; subst hp
    rw [request_action_live_eq n selfIdx role "night" surv vt nt ctr hs]
    rcases role <;> rcases nt with _ | tn <;>
      simp [generate_night_work_vectors_night_eq, EncVec.mk.injEq]
  · intro hs ha hp
    subst ha
    rcases hp with hp | hp <;>
      (subst hp;
       rw [request_action_live_eq n selfIdx role _ surv vt nt ctr hs];
       simp)

/-- C9 witness: the amended theorem at a concrete night request whose
survivors list omits the agent (player 2 of 4, survivors `[0, 1]`). -/
theorem C9_dead_single_ciphertext_witness :
    (request_action 4 2 true Role.doctor "night" [0, 1] none (some 1) 7).1.2 = false
    ∧ (request_action 4 2 true Role.doctor "night" [0, 1] none (some 1) 7).1.1.vote_vector
      = ⟨Vec.zero 4, 7⟩
    ∧ (request_action 4 2 true Role.doctor "night" [0, 1] none (some 1) 7).1.1.attack_vector
      = (request_action 4 2 true Role.doctor "night" [0, 1] none (some 1) 7).1.1.vote_vector
    ∧ (request_action 4 2 true Role.doctor "night" [0, 1] none (some 1) 7).1.1.heal_vector
      = (request_action 4 2 true Role.doctor "night" [0, 1] none (some 1) 7).1.1.vote_vector :=
  (C9_dead_single_ciphertext 4 2 true Role.doctor "night" [0, 1] none (some 1) 7).1
    (by decide)

/-! ## Claim C10 -/

/-- Looking up the key just assigned returns the new note. -/
theorem getNote_setNote_self (notes : List (Nat × SuspicionNote)) (i : Nat)
    (v : SuspicionNote) : getNote (setNote notes i v) i = some v := by
  simp [getNote, setNote]

/-- C10: (1) once a note is stored with `is_confirmed`, no `write_note` call
changes it — the manager is returned unchanged and the outcome is a refusal,
never an update; (2) `add_investigation_result` with `is_mafia = false`
stores the note UNconfirmed, so a later `write_note` with any valid level
succeeds and replaces it; (3) `add_investigation_result` with
`is_mafia = true` stores the note confirmed. -/
theorem C10_confirmed_note_immutable :
    (∀ (m : SuspicionNoteManager) (target : Nat) (lvl rsn : String)
       (turn : Nat) (ic : Bool) (note : SuspicionNote),
       getNote m.notes target = some note → note.is_confirmed = true →
       (m.write_note target lvl rsn turn ic).2 = m
       ∧ (m.write_note target lvl rsn turn ic).1 ≠ WriteOutcome.updated)
    ∧ (∀ (m : SuspicionNoteManager) (target turn : Nat),
       target ≠ m.player_index → target < m.num_players →
       (∃ note, getNote
            ((PoliceNoteManager.add_investigation_result m target false turn).2).notes
            target = some note
          ∧ note.is_confirmed = false)
       ∧ (∀ (lvl rsn : String) (turn2 : Nat) (ic : Bool),
           lvl ∈ validLevels m.isPolice →
           (((PoliceNoteManager.add_investigation_result m target false turn).2).write_note
               target lvl rsn turn2 ic).1 = WriteOutcome.updated
           ∧ getNote ((((PoliceNoteManager.add_investigation_result m target false turn).2).write_note
               target lvl rsn turn2 ic).2).notes target
             = some ⟨target, lvl, rsn, ic, turn2, false⟩))
    ∧ (∀ (m : SuspicionNoteManager) (target turn : Nat),
       target ≠ m.player_index → target < m.num_players →
       ∃ note, getNote
           ((PoliceNoteManager.add_investigation_result m target true turn).2).notes
           target = some note
         ∧ note.is_confirmed = true) := by
  refine ⟨?_, ?_, ?_⟩
  · intro m target lvl rsn turn ic note hnote hconf
    unfold SuspicionNoteManager.write_note
    by_cases h1 : target = m.player_index
    · rw [if_pos h1]
      exact ⟨rfl, by simp⟩
    · rw [if_neg h1]
      by_cases h2 : m.num_players ≤ target
      · rw [if_pos h2]
        exact ⟨rfl, by simp⟩
      · rw [if_neg h2]
        simp [hnote, hconf]
  · intro m target turn h1 h2
    have hadd : (PoliceNoteManager.add_investigation_result m target false turn).2
        = { m with notes := setNote m.notes target ⟨target, "confirmed_not_mafia", "Police investigation result", false, turn, false⟩ } := by
      unfold PoliceNoteManager.add_investigation_result
      rw [if_neg h1, if_neg (by omega)]
      rfl
    constructor
    · exact ⟨_, by rw [hadd]; exact getNote_setNote_self _ _ _, rfl⟩
    · intro lvl rsn turn2 ic hvalid
      rw [hadd]
      unfold SuspicionNoteManager.write_note
      rw [if_neg h1, if_neg (by simp; omega)]
      simp only [getNote_setNote_self]
      rw [if_neg (by simp)]
      rw [if_pos (by simpa using hvalid)]
      exact ⟨rfl, getNote_setNote_self _ _ _⟩
  · intro m target turn h1 h2
    have hadd : (PoliceNoteManager.add_investigation_result m target true turn).2
        = { m with notes := setNote m.notes target ⟨target, "confirmed_mafia", "Police investigation result", true, turn, false⟩ } := by
      unfold PoliceNoteManager.add_investigation_result
      rw [if_neg h1, if_neg (by omega)]
      rfl
    exact ⟨_, by rw [hadd]; exact getNote_setNote_self _ _ _, rfl⟩

/-- C10 witness: a concrete 4-player police manager; a NOT-MAFIA result on
player 2 stays unconfirmed and a later `write_note` with level "high"
overwrites it. -/
theorem C10_confirmed_note_witness :
    (∃ note, getNote
        ((PoliceNoteManager.add_investigation_result ⟨4, 0, true, []⟩ 2 false 1).2).notes 2
        = some note ∧ note.is_confirmed = false)
    ∧ ((((PoliceNoteManager.add_investigation_result ⟨4, 0, true, []⟩ 2 false 1).2).write_note
        2 "high" "acts odd" 2 false).1 = WriteOutcome.updated
       ∧ getNote (((((PoliceNoteManager.add_investigation_result ⟨4, 0, true, []⟩ 2 false 1).2).write_note
        2 "high" "acts odd" 2 false)).2).notes 2
         = some ⟨2, "high", "acts odd", false, 2, false⟩) :=
  ⟨(C10_confirmed_note_immutable.2.1 ⟨4, 0, true, []⟩ 2 1 (by decide) (by decide)).1,
   (C10_confirmed_note_immutable.2.1 ⟨4, 0, true, []⟩ 2 1 (by decide) (by decide)).2
     "high" "acts odd" 2 false (by decide)⟩

/-- C6 witness: a 4-player instance where party 1 times out — its share is
silently dropped and the investigator (party 3) fuses its own share plus the
two collected ones. -/
theorem C6_investigation_witness :
    (execute_police_investigation 3 4 (Ct.oneHot 4 1)
        (fun i => if i = 1 then none
                  else some (decryptShare i (Ct.dot (Ct.oneHot 4 1) mafia_check_vector)))).1
      = decryptShare 3 (Ct.dot (Ct.oneHot 4 1) mafia_check_vector)
        :: ((List.range 4).filter (fun i => i ≠ 3)).filterMap
            (fun i => if i = 1 then none
                      else some (decryptShare i (Ct.dot (Ct.oneHot 4 1) mafia_check_vector)))
    ∧ (execute_police_investigation 3 4 (Ct.oneHot 4 1)
        (fun i => if i = 1 then none
                  else some (decryptShare i (Ct.dot (Ct.oneHot 4 1) mafia_check_vector)))).2
      = fusion_decrypt ((execute_police_investigation 3 4 (Ct.oneHot 4 1)
          (fun i => if i = 1 then none
                    else some (decryptShare i (Ct.dot (Ct.oneHot 4 1) mafia_check_vector)))).1)
    ∧ ((execute_police_investigation 3 4 (Ct.oneHot 4 1)
        (fun i => if i = 1 then none
                  else some (decryptShare i (Ct.dot (Ct.oneHot 4 1) mafia_check_vector)))).1).length
      = 1 + (((List.range 4).filter (fun i => i ≠ 3)).filterMap
            (fun i => if i = 1 then none
                      else some (decryptShare i (Ct.dot (Ct.oneHot 4 1) mafia_check_vector)))).length :=
  C6_investigation_fuses_collected 3 4 (Ct.oneHot 4 1)
    (fun i => if i = 1 then none
              else some (decryptShare i (Ct.dot (Ct.oneHot 4 1) mafia_check_vector)))
